import Mathlib

/-!
Shallow embedding of `examples/mkpart.rs` from the libparted repository.

The file under verification is a small command-line program: it parses
three positional arguments (device path, start sector, length with an
optional unit suffix) and then drives an external partitioning engine
through a fixed sequence of calls (open device, build geometry, open
disk, construct partition, optionally set the LBA flag, derive the
exact constraint, add the partition, commit).

The engine (the `libparted` bindings) is modelled as a record of
response functions, universally quantified in the theorems, so that
claims of the form "for every sequence of engine responses ..." can be
stated directly.  Strings are modelled as lists of characters; the
suffix checks and slices in the source act on ASCII suffixes, for which
the byte-level and character-level views agree.  Machine integers are
modelled as `Nat` with explicit `% 2 ^ 64` where Rust's release-mode
wrapping can occur, and the `as i64` casts as an explicit
reinterpretation into `Int`.
-/

namespace Mkpart

/-- The `Unit` enum of the source: a partition length tagged as raw
sectors, mebibytes or megabytes (`mkpart.rs` lines 13-17). -/
inductive Unit
  | Sectors (n : Nat)
  | Mebibytes (m : Nat)
  | Megabytes (mb : Nat)
  deriving DecidableEq, Repr

/-- Rust's `str::ends_with` on character lists: `l` ends with `s`. -/
def ends_with (l s : List Char) : Bool :=
  decide (s.length ≤ l.length) && (l.drop (l.length - s.length) == s)

/-- Rust's `str::parse::<u64>`: an optional leading `+`, then one or
more ASCII digits, rejecting values that do not fit in 64 bits.
Returns `none` exactly when the Rust parse returns `Err`. -/
def parse_u64 (s : List Char) : Option Nat :=
  let ds := match s with
    | '+' :: rest => rest
    | _ => s
  if ds.isEmpty then none
  else if ds.all Char.isDigit then
    let v := ds.foldl (fun acc c => acc * 10 + (c.toNat - '0'.toNat)) 0
    if v < 2 ^ 64 then some v else none
  else none

/-- The length-suffix parsing of `get_config` (`mkpart.rs` lines
31-43): check the `MB` suffix first, then `M`, else raw sectors;
`none` models the `invalid sector length` parse failure. -/
def parse_length (length_str : List Char) : Option Unit :=
  if ends_with length_str ['M', 'B'] then
    (parse_u64 (length_str.take (length_str.length - 2))).map Unit.Megabytes
  else if ends_with length_str ['M'] then
    (parse_u64 (length_str.take (length_str.length - 1))).map Unit.Mebibytes
  else
    (parse_u64 length_str).map Unit.Sectors

/-- `get_config` (`mkpart.rs` lines 19-46).  The `io::Error` values it
builds carry only a message, so configuration errors are modelled by
their message string. -/
def get_config (args : List (List Char)) : Except String (List Char × Nat × Unit) :=
  match args with
  | [] => .error "no device provided"
  | [_] => .error "no start provided"
  | [_, _] => .error "no length provided"
  | device :: start_str :: length_str :: _ =>
    match parse_u64 start_str with
    | none => .error "invalid start value"
    | some start =>
      match parse_length length_str with
      | none => .error "invalid sector length"
      | some length => .ok (device, start, length)

/-- Rust's `()` type (monomorphic, to keep all results in `Type 0`). -/
inductive RustUnit
  | unit
  deriving DecidableEq, Repr

/-- Engine-reported I/O failures, modelled by their message. -/
abbrev IoError := String

/-- An opened device handle; the only property the program reads from
it is the sector size. -/
structure Device where
  sector_size : Nat
  deriving DecidableEq, Repr

/-- A geometry handle; `Geometry::new(&dev, start, length)` stores the
two signed values and `geometry.start()` / `geometry.length()` return
them. -/
structure Geometry where
  start : Int
  length : Int
  deriving DecidableEq, Repr

/-- Opaque disk handle token. -/
abbrev Disk := Nat

/-- Opaque partition handle token. -/
abbrev Partition := Nat

/-- Opaque constraint handle token. -/
abbrev Constraint := Nat

/-- The partition type constant used by the program. -/
inductive PartitionType
  | PED_PARTITION_NORMAL
  deriving DecidableEq, Repr

/-- The partition flag constant used by the program. -/
inductive PartitionFlag
  | PED_PARTITION_LBA
  deriving DecidableEq, Repr

/-- Filesystem type descriptor; the program only ever passes `none`. -/
inductive FileSystemType
  | fs
  deriving DecidableEq, Repr

/-- The external partitioning engine as a record of response
functions; theorems quantify over it, so every sequence of engine
responses is covered. -/
structure Engine where
  openDevice : List Char → Except IoError Device
  newGeometry : Device → Int → Int → Except IoError Geometry
  newDisk : Device → Except IoError Disk
  newPartition : Disk → PartitionType → Option FileSystemType → Int → Int → Except IoError Partition
  isFlagAvailable : Partition → PartitionFlag → Bool
  setFlag : Partition → PartitionFlag → Bool → Except IoError RustUnit
  exact : Geometry → Option Constraint
  addPartition : Disk → Partition → Constraint → Except IoError RustUnit
  commit : Disk → Except IoError RustUnit

/-- The error enum `PartedError` (`mkpart.rs` lines 48-58). -/
inductive PartedError
  | OpenDevice (why : IoError)
  | CreateGeometry (why : IoError)
  | CreateDisk (why : IoError)
  | CreatePartition (why : IoError)
  | ExactConstraint
  | AddPartition (why : IoError)
  | CommitChanges (why : IoError)
  | InvalidFileSystemType
  deriving DecidableEq, Repr

/-- The `#[fail(display = ...)]` strings of `PartedError`. -/
def display (e : PartedError) : String :=
  match e with
  | .OpenDevice why => "unable to open device: " ++ why
  | .CreateGeometry why => "unable to create new geometry: " ++ why
  | .CreateDisk why => "unable to create new disk: " ++ why
  | .CreatePartition why => "unable to create new partition: " ++ why
  | .ExactConstraint => "unable to get exact constraint from geometry"
  | .AddPartition why => "unable to add partition to disk: " ++ why
  | .CommitChanges why => "unable to commit changes to disk: " ++ why
  | .InvalidFileSystemType => "invalid file system type"

/-- Rust's `u64 as i64` reinterpretation for a value below `2 ^ 64`. -/
def u64_as_i64 (v : Nat) : Int :=
  if v < 2 ^ 63 then (v : Int) else (v : Int) - 2 ^ 64

/-- The length resolution inside `create_partition` (`mkpart.rs` lines
66-70).  The products are `u64` multiplications, hence the explicit
wraparound modulo `2 ^ 64`; the division is truncating `u64`
division. -/
def resolveLength (length : Unit) (sector_size : Nat) : Nat :=
  match length with
  | .Sectors sectors => sectors
  | .Mebibytes m => m * 1000 % 2 ^ 64 * 1000 % 2 ^ 64 / sector_size
  | .Megabytes mb => mb * 1024 % 2 ^ 64 * 1024 % 2 ^ 64 / sector_size

/-- The engine calls `create_partition` can attempt, in source order. -/
inductive Step
  | openDevice
  | createGeometry
  | createDisk
  | createPartition
  | flagCheck
  | flagSet
  | exactConstraint
  | addPartition
  | commit
  deriving DecidableEq, Repr

/-- `create_partition` (`mkpart.rs` lines 61-108), instrumented with
the list of engine calls it attempts, in order.  The result component
is exactly the source's return value; the trace component records
which steps executed. -/
def createPartitionRun (e : Engine) (device : List Char) (start : Nat) (length : Unit) :
    Except PartedError RustUnit × List Step :=
  match e.openDevice device with
  | .error why => (.error (.OpenDevice why), [.openDevice])
  | .ok dev =>
    let length := resolveLength length dev.sector_size
    match e.newGeometry dev (u64_as_i64 start) (u64_as_i64 length) with
    | .error why => (.error (.CreateGeometry why), [.openDevice, .createGeometry])
    | .ok geometry =>
      match e.newDisk dev with
      | .error why =>
        (.error (.CreateDisk why), [.openDevice, .createGeometry, .createDisk])
      | .ok disk =>
        let fs_type : Option FileSystemType := none
        let part_type := PartitionType.PED_PARTITION_NORMAL
        match e.newPartition disk part_type fs_type geometry.start geometry.length with
        | .error why =>
          (.error (.CreatePartition why),
            [.openDevice, .createGeometry, .createDisk, .createPartition])
        | .ok partition =>
          let flagTrace :=
            if e.isFlagAvailable partition PartitionFlag.PED_PARTITION_LBA then
              let _ := e.setFlag partition PartitionFlag.PED_PARTITION_LBA true
              [Step.flagCheck, Step.flagSet]
            else [Step.flagCheck]
          let pre :=
            [Step.openDevice, Step.createGeometry, Step.createDisk, Step.createPartition]
              ++ flagTrace
          match e.exact geometry with
          | none => (.error .ExactConstraint, pre ++ [.exactConstraint])
          | some constraint =>
            match e.addPartition disk partition constraint with
            | .error why =>
              (.error (.AddPartition why), pre ++ [.exactConstraint, .addPartition])
            | .ok _ =>
              match e.commit disk with
              | .error why =>
                (.error (.CommitChanges why),
                  pre ++ [.exactConstraint, .addPartition, .commit])
              | .ok _ => (.ok ⟨⟩, pre ++ [.exactConstraint, .addPartition, .commit])

/-- `create_partition` proper: the result the source function returns. -/
def create_partition (e : Engine) (device : List Char) (start : Nat) (length : Unit) :
    Except PartedError RustUnit :=
  (createPartitionRun e device start length).1

/-- `main` (`mkpart.rs` lines 110-127), modelled as a pure function
from the engine and the argument list to the process exit code and the
lines printed to the error stream. -/
def main_run (e : Engine) (args : List (List Char)) : Nat × List String :=
  match get_config args with
  | .error why =>
    (1, ["mkpart error: " ++ why, "\tUsage: mkpart <device> <start> <length>"])
  | .ok (device, start, length) =>
    match create_partition e device start length with
    | .ok _ => (0, [])
    | .error why =>
      (1, ["mkpart: " ++ String.mk device ++ " errored: " ++ display why])

/-- An engine on which every step succeeds; the geometry echoes the
requested start and length, and the flag is reported available but
setting it fails. -/
def okEngine : Engine where
  openDevice := fun _ => .ok ⟨512⟩
  newGeometry := fun _ a b => .ok ⟨a, b⟩
  newDisk := fun _ => .ok 0
  newPartition := fun _ _ _ _ _ => .ok 0
  isFlagAvailable := fun _ _ => true
  setFlag := fun _ _ _ => .error "flag failed"
  exact := fun _ => some 0
  addPartition := fun _ _ _ => .ok RustUnit.unit
  commit := fun _ => .ok RustUnit.unit

/-- `okEngine` with a failing device open. -/
def failOpenEngine : Engine :=
  { okEngine with openDevice := fun _ => .error "open failed" }

/-- `okEngine` with a failing geometry constructor. -/
def failGeomEngine : Engine :=
  { okEngine with newGeometry := fun _ _ _ => .error "geom failed" }

/-- `okEngine` with a failing commit. -/
def failCommitEngine : Engine :=
  { okEngine with commit := fun _ => .error "commit failed" }

lemma resolveLength_mebibytes (m s : Nat) (hm : m * 1000000 < 2 ^ 64) :
    resolveLength (Unit.Mebibytes m) s = m * 1000000 / s := by
  have e1 : m * 1000 * 1000 = m * 1000000 := by ring
  have h0 : m * 1000 ≤ m * 1000000 := Nat.mul_le_mul_left m (by norm_num)
  have h1 : m * 1000 % 2 ^ 64 = m * 1000 := Nat.mod_eq_of_lt (lt_of_le_of_lt h0 hm)
  have h2 : m * 1000 * 1000 % 2 ^ 64 = m * 1000 * 1000 :=
    Nat.mod_eq_of_lt (by rw [e1]; exact hm)
  simp only [resolveLength, h1, h2, e1]
  rw [Nat.mod_eq_of_lt hm]

lemma resolveLength_megabytes (mb s : Nat) (hmb : mb * 1048576 < 2 ^ 64) :
    resolveLength (Unit.Megabytes mb) s = mb * 1048576 / s := by
  have e1 : mb * 1024 * 1024 = mb * 1048576 := by ring
  have h0 : mb * 1024 ≤ mb * 1048576 := Nat.mul_le_mul_left mb (by norm_num)
  have h1 : mb * 1024 % 2 ^ 64 = mb * 1024 := Nat.mod_eq_of_lt (lt_of_le_of_lt h0 hmb)
  have h2 : mb * 1024 * 1024 % 2 ^ 64 = mb * 1024 * 1024 :=
    Nat.mod_eq_of_lt (by rw [e1]; exact hmb)
  simp only [resolveLength, h1, h2, e1]
  rw [Nat.mod_eq_of_lt hmb]

/-- C1: `create_partition` resolves a parsed length to sectors as
`Sectors(n) ↦ n`, `Mebibytes(m) ↦ m * 1_000_000 / s` and
`Megabytes(mb) ↦ mb * 1_048_576 / s` with truncating division (stated
below the `u64` overflow threshold, where the products do not wrap);
in particular with sector size 512, `Mebibytes(1)` resolves to 1953
sectors. -/
theorem c1_resolve_length_conversions (s n m mb : Nat)
    (hm : m * 1000000 < 2 ^ 64) (hmb : mb * 1048576 < 2 ^ 64) :
    resolveLength (Unit.Sectors n) s = n ∧
    resolveLength (Unit.Mebibytes m) s = m * 1000000 / s ∧
    resolveLength (Unit.Megabytes mb) s = mb * 1048576 / s ∧
    resolveLength (Unit.Mebibytes 1) 512 = 1953 :=
  ⟨rfl, resolveLength_mebibytes m s hm, resolveLength_megabytes mb s hmb, by decide⟩

/-- Witness for C1 at sector size 512, `n = 7`, `m = mb = 1`. -/
theorem c1_resolve_length_conversions_witness :
    1 * 1000000 < 2 ^ 64 ∧ 1 * 1048576 < 2 ^ 64 ∧
    (resolveLength (Unit.Sectors 7) 512 = 7 ∧
     resolveLength (Unit.Mebibytes 1) 512 = 1 * 1000000 / 512 ∧
     resolveLength (Unit.Megabytes 1) 512 = 1 * 1048576 / 512 ∧
     resolveLength (Unit.Mebibytes 1) 512 = 1953) :=
  ⟨by norm_num, by norm_num,
   c1_resolve_length_conversions 512 7 1 1 (by norm_num) (by norm_num)⟩

/-- C2 counterexample: the claim assigns `Mebibytes` the binary
multiplier, but at sector size 512 the code resolves `Mebibytes(1)` to
1953 sectors, not `1 * 1_048_576 / 512 = 2048`. -/
theorem c2_counterexample :
    resolveLength (Unit.Mebibytes 1) 512 ≠ 1 * 1048576 / 512 := by decide

/-- C2 amended: the multipliers are swapped relative to the
conventional unit meanings — a `Mebibytes`-tagged value is converted
with the decimal multiplier `1_000_000` and a `Megabytes`-tagged value
with the binary multiplier `1_048_576` (below the overflow
threshold). -/
theorem c2_swapped_multipliers (s m mb : Nat)
    (hm : m * 1000000 < 2 ^ 64) (hmb : mb * 1048576 < 2 ^ 64) :
    resolveLength (Unit.Mebibytes m) s = m * 1000000 / s ∧
    resolveLength (Unit.Megabytes mb) s = mb * 1048576 / s :=
  ⟨resolveLength_mebibytes m s hm, resolveLength_megabytes mb s hmb⟩

/-- Witness for the amended C2 at sector size 512, `m = mb = 1`. -/
theorem c2_swapped_multipliers_witness :
    1 * 1000000 < 2 ^ 64 ∧ 1 * 1048576 < 2 ^ 64 ∧
    (resolveLength (Unit.Mebibytes 1) 512 = 1 * 1000000 / 512 ∧
     resolveLength (Unit.Megabytes 1) 512 = 1 * 1048576 / 512) :=
  ⟨by norm_num, by norm_num, c2_swapped_multipliers 512 1 1 (by norm_num) (by norm_num)⟩

/-- C3: length parsing checks the `MB` suffix before the `M` suffix;
a string ending in `MB` parses to `Megabytes` of its stripped
remainder and never to `Mebibytes`; `"100MB"`, `"100M"` and `"100"`
parse to `Megabytes 100`, `Mebibytes 100` and `Sectors 100`. -/
theorem c3_suffix_parsing :
    (∀ l : List Char, ends_with l ['M', 'B'] = true →
      parse_length l = (parse_u64 (l.take (l.length - 2))).map Unit.Megabytes) ∧
    (∀ l : List Char, ends_with l ['M', 'B'] = false → ends_with l ['M'] = true →
      parse_length l = (parse_u64 (l.take (l.length - 1))).map Unit.Mebibytes) ∧
    (∀ l : List Char, ends_with l ['M', 'B'] = false → ends_with l ['M'] = false →
      parse_length l = (parse_u64 l).map Unit.Sectors) ∧
    (∀ l : List Char, ends_with l ['M', 'B'] = true →
      ∀ k, parse_length l ≠ some (Unit.Mebibytes k)) ∧
    parse_length "100MB".toList = some (Unit.Megabytes 100) ∧
    parse_length "100M".toList = some (Unit.Mebibytes 100) ∧
    parse_length "100".toList = some (Unit.Sectors 100) := by
  refine ⟨?_, ?_, ?_, ?_, by decide, by decide, by decide⟩
  · intro l h
    simp [parse_length, h]
  · intro l h1 h2
    simp [parse_length, h1, h2]
  · intro l h1 h2
    simp [parse_length, h1, h2]
  · intro l h k
    simp only [parse_length, h, if_true]
    cases parse_u64 (l.take (l.length - 2)) <;> simp

/-- Witness for C3 on the inputs `"5MB"`, `"5M"` and `"5"`. -/
theorem c3_suffix_parsing_witness :
    parse_length "5MB".toList
      = (parse_u64 ("5MB".toList.take ("5MB".toList.length - 2))).map Unit.Megabytes ∧
    parse_length "5M".toList
      = (parse_u64 ("5M".toList.take ("5M".toList.length - 1))).map Unit.Mebibytes ∧
    parse_length "5".toList = (parse_u64 "5".toList).map Unit.Sectors ∧
    parse_length "5MB".toList ≠ some (Unit.Mebibytes 5) :=
  ⟨c3_suffix_parsing.1 "5MB".toList (by decide),
   c3_suffix_parsing.2.1 "5M".toList (by decide) (by decide),
   c3_suffix_parsing.2.2.1 "5".toList (by decide) (by decide),
   c3_suffix_parsing.2.2.2.1 "5MB".toList (by decide) 5⟩

/-- C5: with fewer than three arguments `get_config` fails naming the
first absent argument, in the order device, start, length; arguments
beyond the third are ignored; and on a configuration error the
program's behaviour does not depend on the engine, so partition
creation is never entered. -/
theorem c5_missing_arguments :
    get_config [] = .error "no device provided" ∧
    (∀ d : List Char, get_config [d] = .error "no start provided") ∧
    (∀ d s : List Char, get_config [d, s] = .error "no length provided") ∧
    (∀ (d s l : List Char) (rest : List (List Char)),
      get_config (d :: s :: l :: rest) = get_config [d, s, l]) ∧
    (∀ (e e' : Engine) (args : List (List Char)) (why : String),
      get_config args = .error why → main_run e args = main_run e' args) := by
  refine ⟨rfl, fun d => rfl, fun d s => rfl, fun d s l rest => rfl, ?_⟩
  intro e e' args why h
  simp [main_run, h]

/-- Witness for C5: one, two and four arguments, and the
engine-independence of the no-device error on the empty argument
list. -/
theorem c5_missing_arguments_witness :
    get_config ["a".toList] = .error "no start provided" ∧
    get_config ["a".toList, "1".toList] = .error "no length provided" ∧
    get_config ["a".toList, "1".toList, "2".toList, "x".toList]
      = get_config ["a".toList, "1".toList, "2".toList] ∧
    get_config [] = .error "no device provided" ∧
    main_run okEngine []
      = main_run { okEngine with openDevice := fun _ => .error "e" } [] :=
  ⟨c5_missing_arguments.2.1 "a".toList,
   c5_missing_arguments.2.2.1 "a".toList "1".toList,
   c5_missing_arguments.2.2.2.1 "a".toList "1".toList "2".toList ["x".toList],
   c5_missing_arguments.1,
   c5_missing_arguments.2.2.2.2 okEngine
     { okEngine with openDevice := fun _ => .error "e" } [] "no device provided" rfl⟩

/-- C6: a start string that does not parse as `u64` (non-numeric,
negative or overflowing) yields the invalid-start error, and a length
string whose remainder after suffix stripping does not parse yields
the invalid-length error. -/
theorem c6_invalid_start_and_length :
    (∀ (d s l : List Char) (rest : List (List Char)), parse_u64 s = none →
      get_config (d :: s :: l :: rest) = .error "invalid start value") ∧
    (∀ (d s l : List Char) (rest : List (List Char)) (st : Nat),
      parse_u64 s = some st → parse_length l = none →
      get_config (d :: s :: l :: rest) = .error "invalid sector length") ∧
    parse_u64 "abc".toList = none ∧
    parse_u64 "-5".toList = none ∧
    parse_u64 "18446744073709551616".toList = none ∧
    parse_length "abcM".toList = none := by
  refine ⟨?_, ?_, by decide, by decide, by decide, by decide⟩
  · intro d s l rest h
    simp [get_config, h]
  · intro d s l rest st h1 h2
    simp [get_config, h1, h2]

/-- Witness for C6 on the start `"abc"` and the length `"abcM"`. -/
theorem c6_invalid_start_and_length_witness :
    get_config ["dev".toList, "abc".toList, "5".toList] = .error "invalid start value" ∧
    get_config ["dev".toList, "0".toList, "abcM".toList] = .error "invalid sector length" :=
  ⟨c6_invalid_start_and_length.1 "dev".toList "abc".toList "5".toList [] (by decide),
   c6_invalid_start_and_length.2.1 "dev".toList "0".toList "abcM".toList [] 0
     (by decide) (by decide)⟩

/-- C4: every failing orchestrator step aborts `create_partition`
immediately with the distinct error kind of exactly that step; the
call trace stops at the failing step and, on every run, no step
appears twice. -/
theorem c4_short_circuit (e : Engine) (device : List Char) (start : Nat) (length : Unit) :
    (∀ why, e.openDevice device = .error why →
      createPartitionRun e device start length
        = (.error (.OpenDevice why), [.openDevice])) ∧
    (∀ dev why, e.openDevice device = .ok dev →
      e.newGeometry dev (u64_as_i64 start)
          (u64_as_i64 (resolveLength length dev.sector_size)) = .error why →
      createPartitionRun e device start length
        = (.error (.CreateGeometry why), [.openDevice, .createGeometry])) ∧
    (∀ dev g why, e.openDevice device = .ok dev →
      e.newGeometry dev (u64_as_i64 start)
          (u64_as_i64 (resolveLength length dev.sector_size)) = .ok g →
      e.newDisk dev = .error why →
      createPartitionRun e device start length
        = (.error (.CreateDisk why), [.openDevice, .createGeometry, .createDisk])) ∧
    (∀ dev g d why, e.openDevice device = .ok dev →
      e.newGeometry dev (u64_as_i64 start)
          (u64_as_i64 (resolveLength length dev.sector_size)) = .ok g →
      e.newDisk dev = .ok d →
      e.newPartition d PartitionType.PED_PARTITION_NORMAL none g.start g.length
        = .error why →
      createPartitionRun e device start length
        = (.error (.CreatePartition why),
           [.openDevice, .createGeometry, .createDisk, .createPartition])) ∧
    (∀ dev g d p, e.openDevice device = .ok dev →
      e.newGeometry dev (u64_as_i64 start)
          (u64_as_i64 (resolveLength length dev.sector_size)) = .ok g →
      e.newDisk dev = .ok d →
      e.newPartition d PartitionType.PED_PARTITION_NORMAL none g.start g.length = .ok p →
      e.exact g = none →
      createPartitionRun e device start length
        = (.error .ExactConstraint,
           [Step.openDevice, Step.createGeometry, Step.createDisk, Step.createPartition]
             ++ (if e.isFlagAvailable p PartitionFlag.PED_PARTITION_LBA then
                   [Step.flagCheck, Step.flagSet]
                 else [Step.flagCheck])
             ++ [Step.exactConstraint])) ∧
    (∀ dev g d p c why, e.openDevice device = .ok dev →
      e.newGeometry dev (u64_as_i64 start)
          (u64_as_i64 (resolveLength length dev.sector_size)) = .ok g →
      e.newDisk dev = .ok d →
      e.newPartition d PartitionType.PED_PARTITION_NORMAL none g.start g.length = .ok p →
      e.exact g = some c →
      e.addPartition d p c = .error why →
      createPartitionRun e device start length
        = (.error (.AddPartition why),
           [Step.openDevice, Step.createGeometry, Step.createDisk, Step.createPartition]
             ++ (if e.isFlagAvailable p PartitionFlag.PED_PARTITION_LBA then
                   [Step.flagCheck, Step.flagSet]
                 else [Step.flagCheck])
             ++ [Step.exactConstraint, Step.addPartition])) ∧
    (∀ dev g d p c why, e.openDevice device = .ok dev →
      e.newGeometry dev (u64_as_i64 start)
          (u64_as_i64 (resolveLength length dev.sector_size)) = .ok g →
      e.newDisk dev = .ok d →
      e.newPartition d PartitionType.PED_PARTITION_NORMAL none g.start g.length = .ok p →
      e.exact g = some c →
      e.addPartition d p c = .ok RustUnit.unit →
      e.commit d = .error why →
      createPartitionRun e device start length
        = (.error (.CommitChanges why),
           [Step.openDevice, Step.createGeometry, Step.createDisk, Step.createPartition]
             ++ (if e.isFlagAvailable p PartitionFlag.PED_PARTITION_LBA then
                   [Step.flagCheck, Step.flagSet]
                 else [Step.flagCheck])
             ++ [Step.exactConstraint, Step.addPartition, Step.commit])) ∧
    (createPartitionRun e device start length).2.Nodup := by
  refine ⟨?_, ?_, ?_, ?_, ?_, ?_, ?_, ?_⟩
  · intro why h
    simp [createPartitionRun, h]
  · intro dev why h1 h2
    simp [createPartitionRun, h1, h2]
  · intro dev g why h1 h2 h3
    simp [createPartitionRun, h1, h2, h3]
  · intro dev g d why h1 h2 h3 h4
    simp [createPartitionRun, h1, h2, h3, h4]
  · intro dev g d p h1 h2 h3 h4 h5
    simp [createPartitionRun, h1, h2, h3, h4, h5]
  · intro dev g d p c why h1 h2 h3 h4 h5 h6
    simp [createPartitionRun, h1, h2, h3, h4, h5, h6]
  · intro dev g d p c why h1 h2 h3 h4 h5 h6 h7
    simp [createPartitionRun, h1, h2, h3, h4, h5, h6, h7]
  · rcases h1 : e.openDevice device with why | dev
    · simp [createPartitionRun, h1]
    · rcases h2 : e.newGeometry dev (u64_as_i64 start)
          (u64_as_i64 (resolveLength length dev.sector_size)) with why | g
      · simp [createPartitionRun, h1, h2]
      · rcases h3 : e.newDisk dev with why | d
        · simp [createPartitionRun, h1, h2, h3]
        · rcases h4 : e.newPartition d PartitionType.PED_PARTITION_NORMAL none
              g.start g.length with why | p
          · simp [createPartitionRun, h1, h2, h3, h4]
          · cases h5 : e.isFlagAvailable p PartitionFlag.PED_PARTITION_LBA <;>
              rcases h6 : e.exact g with _ | c
            · simp [createPartitionRun, h1, h2, h3, h4, h5, h6]
            · rcases h7 : e.addPartition d p c with why | u
              · simp [createPartitionRun, h1, h2, h3, h4, h5, h6, h7]
              · rcases h8 : e.commit d with why | v
                · simp [createPartitionRun, h1, h2, h3, h4, h5, h6, h7, h8]
                · simp [createPartitionRun, h1, h2, h3, h4, h5, h6, h7, h8]
            · simp [createPartitionRun, h1, h2, h3, h4, h5, h6]
            · rcases h7 : e.addPartition d p c with why | u
              · simp [createPartitionRun, h1, h2, h3, h4, h5, h6, h7]
              · rcases h8 : e.commit d with why | v
                · simp [createPartitionRun, h1, h2, h3, h4, h5, h6, h7, h8]
                · simp [createPartitionRun, h1, h2, h3, h4, h5, h6, h7, h8]

/-- Witness for C4: a failing device open aborts at the first step,
and a failing commit returns the commit error after a full trace. -/
theorem c4_short_circuit_witness :
    createPartitionRun failOpenEngine "dev".toList 0 (Unit.Sectors 1)
      = (.error (.OpenDevice "open failed"), [.openDevice]) ∧
    createPartitionRun failCommitEngine "dev".toList 2048 (Unit.Sectors 1000)
      = (.error (.CommitChanges "commit failed"),
         [Step.openDevice, Step.createGeometry, Step.createDisk, Step.createPartition,
          Step.flagCheck, Step.flagSet, Step.exactConstraint, Step.addPartition,
          Step.commit]) :=
  ⟨(c4_short_circuit failOpenEngine "dev".toList 0 (Unit.Sectors 1)).1 "open failed" rfl,
   (c4_short_circuit failCommitEngine "dev".toList 2048
       (Unit.Sectors 1000)).2.2.2.2.2.2.1
     ⟨512⟩ ⟨u64_as_i64 2048, u64_as_i64 (resolveLength (Unit.Sectors 1000) 512)⟩
     0 0 0 "commit failed" rfl rfl rfl rfl rfl rfl rfl⟩

/-- C8: the LBA flag is set only when the engine reports it available
for the constructed partition, the run is invariant under the outcome
of `set_flag` (the failure is swallowed and never appears in the
result), and once a partition is constructed the exact-constraint step
is still attempted. -/
theorem c8_lba_flag (e : Engine)
    (f f' : Partition → PartitionFlag → Bool → Except IoError RustUnit)
    (device : List Char) (start : Nat) (length : Unit) :
    createPartitionRun { e with setFlag := f } device start length
      = createPartitionRun { e with setFlag := f' } device start length ∧
    (Step.flagSet ∈ (createPartitionRun e device start length).2 →
      ∃ dev g d p, e.openDevice device = .ok dev ∧
        e.newGeometry dev (u64_as_i64 start)
          (u64_as_i64 (resolveLength length dev.sector_size)) = .ok g ∧
        e.newDisk dev = .ok d ∧
        e.newPartition d PartitionType.PED_PARTITION_NORMAL none g.start g.length = .ok p ∧
        e.isFlagAvailable p PartitionFlag.PED_PARTITION_LBA = true) ∧
    (∀ dev g d p, e.openDevice device = .ok dev →
      e.newGeometry dev (u64_as_i64 start)
          (u64_as_i64 (resolveLength length dev.sector_size)) = .ok g →
      e.newDisk dev = .ok d →
      e.newPartition d PartitionType.PED_PARTITION_NORMAL none g.start g.length = .ok p →
      (e.isFlagAvailable p PartitionFlag.PED_PARTITION_LBA = true →
        Step.flagSet ∈ (createPartitionRun e device start length).2) ∧
      (e.isFlagAvailable p PartitionFlag.PED_PARTITION_LBA = false →
        Step.flagSet ∉ (createPartitionRun e device start length).2) ∧
      Step.exactConstraint ∈ (createPartitionRun e device start length).2) := by
  refine ⟨?_, ?_, ?_⟩
  · cases e
    rfl
  · intro hmem
    rcases h1 : e.openDevice device with why | dev
    · simp [createPartitionRun, h1] at hmem
    · rcases h2 : e.newGeometry dev (u64_as_i64 start)
          (u64_as_i64 (resolveLength length dev.sector_size)) with why | g
      · simp [createPartitionRun, h1, h2] at hmem
      · rcases h3 : e.newDisk dev with why | d
        · simp [createPartitionRun, h1, h2, h3] at hmem
        · rcases h4 : e.newPartition d PartitionType.PED_PARTITION_NORMAL none
              g.start g.length with why | p
          · simp [createPartitionRun, h1, h2, h3, h4] at hmem
          · cases h5 : e.isFlagAvailable p PartitionFlag.PED_PARTITION_LBA
            · rcases h6 : e.exact g with _ | c
              · simp [createPartitionRun, h1, h2, h3, h4, h5, h6] at hmem
              · rcases h7 : e.addPartition d p c with why | u
                · simp [createPartitionRun, h1, h2, h3, h4, h5, h6, h7] at hmem
                · rcases h8 : e.commit d with why | v
                  · simp [createPartitionRun, h1, h2, h3, h4, h5, h6, h7, h8] at hmem
                  · simp [createPartitionRun, h1, h2, h3, h4, h5, h6, h7, h8] at hmem
            · exact ⟨dev, g, d, p, rfl, h2, h3, h4, h5⟩
  · intro dev g d p h1 h2 h3 h4
    cases h5 : e.isFlagAvailable p PartitionFlag.PED_PARTITION_LBA
    · rcases h6 : e.exact g with _ | c
      · simp [createPartitionRun, h1, h2, h3, h4, h5, h6]
      · rcases h7 : e.addPartition d p c with why | u
        · simp [createPartitionRun, h1, h2, h3, h4, h5, h6, h7]
        · rcases h8 : e.commit d with why | v
          · simp [createPartitionRun, h1, h2, h3, h4, h5, h6, h7, h8]
          · simp [createPartitionRun, h1, h2, h3, h4, h5, h6, h7, h8]
    · rcases h6 : e.exact g with _ | c
      · simp [createPartitionRun, h1, h2, h3, h4, h5, h6]
      · rcases h7 : e.addPartition d p c with why | u
        · simp [createPartitionRun, h1, h2, h3, h4, h5, h6, h7]
        · rcases h8 : e.commit d with why | v
          · simp [createPartitionRun, h1, h2, h3, h4, h5, h6, h7, h8]
          · simp [createPartitionRun, h1, h2, h3, h4, h5, h6, h7, h8]

/-- Witness for C8 on `okEngine`, whose `set_flag` fails while the
flag is reported available: the run is unchanged if `set_flag`
succeeds instead, the flag step is attempted, and the
exact-constraint step still runs. -/
theorem c8_lba_flag_witness :
    createPartitionRun { okEngine with setFlag := fun _ _ _ => .error "a" }
        "dev".toList 0 (Unit.Sectors 1)
      = createPartitionRun { okEngine with setFlag := fun _ _ _ => .ok RustUnit.unit }
        "dev".toList 0 (Unit.Sectors 1) ∧
    Step.flagSet ∈ (createPartitionRun okEngine "dev".toList 0 (Unit.Sectors 1)).2 ∧
    Step.exactConstraint ∈ (createPartitionRun okEngine "dev".toList 0 (Unit.Sectors 1)).2 := by
  refine ⟨?_, ?_, ?_⟩
  · exact (c8_lba_flag okEngine (fun _ _ _ => .error "a")
      (fun _ _ _ => .ok RustUnit.unit) "dev".toList 0 (Unit.Sectors 1)).1
  · exact ((c8_lba_flag okEngine okEngine.setFlag okEngine.setFlag
      "dev".toList 0 (Unit.Sectors 1)).2.2 ⟨512⟩
      ⟨u64_as_i64 0, u64_as_i64 (resolveLength (Unit.Sectors 1) 512)⟩ 0 0
      rfl rfl rfl rfl).1 rfl
  · exact ((c8_lba_flag okEngine okEngine.setFlag okEngine.setFlag
      "dev".toList 0 (Unit.Sectors 1)).2.2 ⟨512⟩
      ⟨u64_as_i64 0, u64_as_i64 (resolveLength (Unit.Sectors 1) 512)⟩ 0 0
      rfl rfl rfl rfl).2.2

/-- C9: the unit conversions are wrapping 64-bit products (for
`Mebibytes 2^45` the product has already wrapped), and start and
resolved length are reinterpreted as signed 64-bit values before
reaching the engine, so any value at or above `2^63` arrives
negative. -/
theorem c9_wrapping_and_cast :
    (∀ m s : Nat, resolveLength (Unit.Mebibytes m) s = m * 1000000 % 2 ^ 64 / s) ∧
    (∀ mb s : Nat, resolveLength (Unit.Megabytes mb) s = mb * 1048576 % 2 ^ 64 / s) ∧
    resolveLength (Unit.Mebibytes 35184372088832) 512
      ≠ 35184372088832 * 1000000 / 512 ∧
    (∀ v : Nat, 2 ^ 63 ≤ v → v < 2 ^ 64 → u64_as_i64 v < 0) ∧
    (∀ (e : Engine) (device : List Char) (start : Nat) (length : Unit)
        (dev : Device) (why : IoError),
      e.openDevice device = .ok dev →
      e.newGeometry dev (u64_as_i64 start)
        (u64_as_i64 (resolveLength length dev.sector_size)) = .error why →
      create_partition e device start length = .error (.CreateGeometry why)) := by
  refine ⟨?_, ?_, by decide, ?_, ?_⟩
  · intro m s
    have h : m * 1000 % 2 ^ 64 * 1000 % 2 ^ 64 = m * 1000000 % 2 ^ 64 := by
      rw [Nat.mod_mul_mod, mul_assoc]
      norm_num
    show m * 1000 % 2 ^ 64 * 1000 % 2 ^ 64 / s = m * 1000000 % 2 ^ 64 / s
    rw [h]
  · intro mb s
    have h : mb * 1024 % 2 ^ 64 * 1024 % 2 ^ 64 = mb * 1048576 % 2 ^ 64 := by
      rw [Nat.mod_mul_mod, mul_assoc]
      norm_num
    show mb * 1024 % 2 ^ 64 * 1024 % 2 ^ 64 / s = mb * 1048576 % 2 ^ 64 / s
    rw [h]
  · intro v h1 h2
    rw [u64_as_i64, if_neg (by omega)]
    omega
  · intro e device start length dev why h1 h2
    simp [create_partition, createPartitionRun, h1, h2]

/-- Witness for C9: `2^63` arrives at the engine negative, and a
geometry failure reported for the cast arguments is what
`create_partition` returns. -/
theorem c9_wrapping_and_cast_witness :
    u64_as_i64 (2 ^ 63) < 0 ∧
    create_partition failGeomEngine "dev".toList (2 ^ 63) (Unit.Sectors 5)
      = .error (.CreateGeometry "geom failed") :=
  ⟨c9_wrapping_and_cast.2.2.2.1 (2 ^ 63) (le_refl _) (by norm_num),
   c9_wrapping_and_cast.2.2.2.2 failGeomEngine "dev".toList (2 ^ 63)
     (Unit.Sectors 5) ⟨512⟩ "geom failed" rfl rfl⟩

/-- C10: `create_partition` never returns `InvalidFileSystemType`, and
the filesystem type it hands to the engine's partition constructor is
always `none`: a failure the engine reports for exactly that call is
what `create_partition` returns. -/
theorem c10_invalid_fs_unreachable (e : Engine) (device : List Char) (start : Nat)
    (length : Unit) :
    create_partition e device start length ≠ .error PartedError.InvalidFileSystemType ∧
    (∀ dev g d why, e.openDevice device = .ok dev →
      e.newGeometry dev (u64_as_i64 start)
          (u64_as_i64 (resolveLength length dev.sector_size)) = .ok g →
      e.newDisk dev = .ok d →
      e.newPartition d PartitionType.PED_PARTITION_NORMAL (none : Option FileSystemType)
          g.start g.length = .error why →
      create_partition e device start length = .error (PartedError.CreatePartition why)) := by
  constructor
  · rcases h1 : e.openDevice device with why | dev
    · simp [create_partition, createPartitionRun, h1]
    · rcases h2 : e.newGeometry dev (u64_as_i64 start)
          (u64_as_i64 (resolveLength length dev.sector_size)) with why | g
      · simp [create_partition, createPartitionRun, h1, h2]
      · rcases h3 : e.newDisk dev with why | d
        · simp [create_partition, createPartitionRun, h1, h2, h3]
        · rcases h4 : e.newPartition d PartitionType.PED_PARTITION_NORMAL none
              g.start g.length with why | p
          · simp [create_partition, createPartitionRun, h1, h2, h3, h4]
          · cases h5 : e.isFlagAvailable p PartitionFlag.PED_PARTITION_LBA <;>
              rcases h6 : e.exact g with _ | c
            · simp [create_partition, createPartitionRun, h1, h2, h3, h4, h5, h6]
            · rcases h7 : e.addPartition d p c with why | u
              · simp [create_partition, createPartitionRun, h1, h2, h3, h4, h5, h6, h7]
              · rcases h8 : e.commit d with why | v
                · simp [create_partition, createPartitionRun,
                    h1, h2, h3, h4, h5, h6, h7, h8]
                · simp [create_partition, createPartitionRun,
                    h1, h2, h3, h4, h5, h6, h7, h8]
            · simp [create_partition, createPartitionRun, h1, h2, h3, h4, h5, h6]
            · rcases h7 : e.addPartition d p c with why | u
              · simp [create_partition, createPartitionRun, h1, h2, h3, h4, h5, h6, h7]
              · rcases h8 : e.commit d with why | v
                · simp [create_partition, createPartitionRun,
                    h1, h2, h3, h4, h5, h6, h7, h8]
                · simp [create_partition, createPartitionRun,
                    h1, h2, h3, h4, h5, h6, h7, h8]
  · intro dev g d why h1 h2 h3 h4
    simp [create_partition, createPartitionRun, h1, h2, h3, h4]

/-- Witness for C10: a partition-construction failure on the
`none`-filesystem call becomes `CreatePartition`, never
`InvalidFileSystemType`. -/
theorem c10_invalid_fs_unreachable_witness :
    create_partition { okEngine with newPartition := fun _ _ _ _ _ => .error "part failed" }
        "dev".toList 0 (Unit.Sectors 1)
      ≠ .error PartedError.InvalidFileSystemType ∧
    create_partition { okEngine with newPartition := fun _ _ _ _ _ => .error "part failed" }
        "dev".toList 0 (Unit.Sectors 1)
      = .error (PartedError.CreatePartition "part failed") :=
  ⟨(c10_invalid_fs_unreachable
      { okEngine with newPartition := fun _ _ _ _ _ => .error "part failed" }
      "dev".toList 0 (Unit.Sectors 1)).1,
   (c10_invalid_fs_unreachable
      { okEngine with newPartition := fun _ _ _ _ _ => .error "part failed" }
      "dev".toList 0 (Unit.Sectors 1)).2 ⟨512⟩
     ⟨u64_as_i64 0, u64_as_i64 (resolveLength (Unit.Sectors 1) 512)⟩ 0 "part failed"
     rfl rfl rfl rfl⟩

lemma usage_ne_creation (d : List Char) (w : PartedError) :
    "\tUsage: mkpart <device> <start> <length>"
      ≠ "mkpart: " ++ String.mk d ++ " errored: " ++ display w := by
  intro h
  have h2 := congrArg String.data h
  simp only [String.data_append] at h2
  simp only [List.cons_append] at h2
  injection h2 with hh _
  exact absurd hh (by decide)

/-- C7: the process exits 0 exactly when configuration and creation
both succeed; on a configuration error it exits 1 printing the error
message and the usage line; on a creation error it exits 1 printing
the error message with the device name; the usage line is printed
exactly on configuration errors. -/
theorem c7_exit_codes (e : Engine) (args : List (List Char)) :
    ((main_run e args).1 = 0 ↔
      ∃ device start length, get_config args = .ok (device, start, length) ∧
        create_partition e device start length = .ok RustUnit.unit) ∧
    (∀ why, get_config args = .error why →
      main_run e args
        = (1, ["mkpart error: " ++ why,
               "\tUsage: mkpart <device> <start> <length>"])) ∧
    (∀ device start length why, get_config args = .ok (device, start, length) →
      create_partition e device start length = .error why →
      main_run e args
        = (1, ["mkpart: " ++ String.mk device ++ " errored: " ++ display why])) ∧
    ("\tUsage: mkpart <device> <start> <length>" ∈ (main_run e args).2 ↔
      ∃ why, get_config args = .error why) := by
  refine ⟨?_, ?_, ?_, ?_⟩
  · rcases hc : get_config args with why | cfg
    · simp [main_run, hc]
    · rcases cfg with ⟨device, start, length⟩
      rcases hp : create_partition e device start length with why | u
      · simp [main_run, hc, hp]
      · cases u
        simp only [main_run, hc]
        rw [hp]
        simp only [Prod.fst]
        exact iff_of_true trivial ⟨device, start, length, rfl, hp⟩
  · intro why h
    simp [main_run, h]
  · intro device start length why h1 h2
    simp [main_run, h1, h2]
  · rcases hc : get_config args with why | cfg
    · simp [main_run, hc]
    · rcases cfg with ⟨device, start, length⟩
      rcases hp : create_partition e device start length with why | u
      · simp [main_run, hc, hp, usage_ne_creation]
      · cases u
        simp [main_run, hc, hp]

/-- Witness for C7: success on `okEngine`, a configuration failure on
the empty argument list, and a creation failure on a failing device
open. -/
theorem c7_exit_codes_witness :
    (main_run okEngine ["dev".toList, "0".toList, "1".toList]).1 = 0 ∧
    main_run okEngine []
      = (1, ["mkpart error: " ++ "no device provided",
             "\tUsage: mkpart <device> <start> <length>"]) ∧
    main_run failOpenEngine ["dev".toList, "0".toList, "1".toList]
      = (1, ["mkpart: " ++ String.mk "dev".toList ++ " errored: "
               ++ display (PartedError.OpenDevice "open failed")]) :=
  ⟨(c7_exit_codes okEngine ["dev".toList, "0".toList, "1".toList]).1.mpr
     ⟨"dev".toList, 0, Unit.Sectors 1, rfl, rfl⟩,
   (c7_exit_codes okEngine []).2.1 "no device provided" rfl,
   (c7_exit_codes failOpenEngine ["dev".toList, "0".toList, "1".toList]).2.2.1
     "dev".toList 0 (Unit.Sectors 1) (PartedError.OpenDevice "open failed") rfl rfl⟩

end Mkpart
